import Mathlib

/-!
Shallow embedding of `src/ChatGuard.py` (a Telegram group-moderation bot)
and proofs about the claims of its specification.

Modelling conventions:
* Remote Telegram operations (`get_chat_member`, `ban_chat_member`,
  `unban_chat_member`, `restrict_chat_member`, `send_message` to a user)
  are oracles recorded in an `Env`; each can succeed or raise a
  `TgError`.  Replies/answers posted into the originating chat are
  modelled as always succeeding (no claim depends on their failure).
* A handler run produces the list of observable `Event`s (remote calls
  and user-facing messages, in order) together with an outcome:
  `Except.ok ()` when the Python coroutine returns normally, or
  `Except.error e` when a Python exception propagates past the handler
  boundary.
* Timestamps are seconds as `Nat`; `datetime.utcnow()` is the `now`
  parameter.  Digits are modelled as ASCII `0`-`9`.
-/

namespace ChatGuard

/-- `aiogram` chat-member status (`ChatMemberStatus`). -/
inductive ChatRole
  | member
  | administrator
  | creator
  | restricted
  | left
  | kicked
deriving DecidableEq

/-- Errors raised by the remote Telegram layer.  `badRequest` models
`TelegramBadRequest`; `other` models any other exception class. -/
inductive TgError
  | badRequest (msg : String)
  | other (msg : String)
deriving DecidableEq

/-- A Python exception escaping a handler. -/
inductive PyExn
  | telegram (e : TgError)
  | attributeError (msg : String)
deriving DecidableEq

/-- Observable events of one handler invocation, in program order. -/
inductive Event
  | getChatMemberCall (userId : Nat)
  | reply (text : String)
  | answer (text : String)
  | banCall (chatId userId : Nat)
  | unbanCall (chatId userId : Nat) (onlyIfBanned : Bool)
  | restrictCall (chatId userId : Nat) (untilDate : Option Nat)
      (canSendMessages canSendOtherMessages : Bool)
  | sendMessageCall (userId : Nat) (text : String)
deriving DecidableEq

/-- The `from_user` of the message being replied to (`reply_to_message`). -/
structure ReplyInfo where
  fromUserId : Nat
  fromFullName : String
  fromFirstName : String
deriving DecidableEq

/-- The incoming command message. -/
structure Msg where
  chatId : Nat
  fromUserId : Nat
  fromFirstName : String
  text : String
  replyTo : Option ReplyInfo
deriving DecidableEq

/-- The remote environment of one invocation: results of each remote
operation the handler may perform, plus the two configuration values. -/
structure Env where
  botId : Nat
  chatLink : String
  getChatMember : Nat → Except TgError ChatRole
  banResult : Except TgError Unit
  unbanResult : Except TgError Unit
  restrictResult : Except TgError Unit
  sendToUser : Nat → Except TgError Unit

/-- Whether an `Except` is a success. -/
def exOk {α β : Type} : Except α β → Bool
  | Except.ok _ => true
  | Except.error _ => false

/-- The text Python renders for a caught exception (`str(e)` / `f"{e}"`). -/
def errText : TgError → String
  | TgError.badRequest m => m
  | TgError.other m => m

/-- A single-quote character, used inside HTML message texts. -/
def sq : String := String.singleton (Char.ofNat 39)

/-- `status in [ADMINISTRATOR, CREATOR]` (lines 57 and 62). -/
def isAdminRole : ChatRole → Bool
  | ChatRole.administrator => true
  | ChatRole.creator => true
  | _ => false

/-- `send_error` (lines 77-81): replies `<b>❌ {error_text}</b>`; its own
`try` never fires because chat-bound replies are modelled as succeeding. -/
def send_error_event (t : String) : Event :=
  Event.reply ("<b>❌ " ++ t ++ "</b>")

/-- `check_admin` (lines 65-74): bot-admin lookup first, then actor-admin
lookup; each failed lookup raises; returns `false` after a denial reply. -/
def check_admin (env : Env) (msg : Msg) : List Event × Except PyExn Bool :=
  match env.getChatMember env.botId with
  | Except.error e =>
      ([Event.getChatMemberCall env.botId], Except.error (PyExn.telegram e))
  | Except.ok rb =>
      if isAdminRole rb then
        match env.getChatMember msg.fromUserId with
        | Except.error e =>
            ([Event.getChatMemberCall env.botId,
              Event.getChatMemberCall msg.fromUserId],
             Except.error (PyExn.telegram e))
        | Except.ok ra =>
            if isAdminRole ra then
              ([Event.getChatMemberCall env.botId,
                Event.getChatMemberCall msg.fromUserId],
               Except.ok true)
            else
              ([Event.getChatMemberCall env.botId,
                Event.getChatMemberCall msg.fromUserId,
                Event.reply "<b>❌ Вы не администратор!</b>"],
               Except.ok false)
      else
        ([Event.getChatMemberCall env.botId,
          Event.reply "<b>❌ Бот не является администратором чата!</b>"],
         Except.ok false)

/-- `send_invite` (lines 122-127): sends the chat link to the user; any
failure is only logged, never re-raised.  (Defined in the source but, as
proved below, never called by `func_unban`.) -/
def send_invite (env : Env) (userId : Nat) : List Event × Except PyExn Unit :=
  match env.sendToUser userId with
  | Except.ok _ => ([Event.sendMessageCall userId env.chatLink], Except.ok ())
  | Except.error _ => ([Event.sendMessageCall userId env.chatLink], Except.ok ())

/-- The unit characters accepted by the regex `(\d+)([smhd])` (line 86).
Note the character class is exactly `smhd`: it does NOT contain `w`, `M`
or `y`, although the `match` statement below has (unreachable) arms for
them. -/
def isUnitChar (c : Char) : Bool :=
  (c == 's') || (c == 'm') || (c == 'h') || (c == 'd')

/-- Numeric value of a digit run, as Python `int` on the matched group. -/
def natOfDigits (ds : List Char) : Nat :=
  ds.foldl (fun acc c => 10 * acc + (c.toNat - 48)) 0

/-- `re.match(r"(\d+)([smhd])", time_str)` (line 86): anchored at the
start only; a greedy run of one or more digits followed by one character
of the class `smhd`.  Anything after that character is ignored (the
pattern is not anchored at the end). -/
def re_match (s : List Char) : Option (Nat × Char) :=
  match s.takeWhile Char.isDigit, s.dropWhile Char.isDigit with
  | [], _ => none
  | _ :: _, [] => none
  | ds, c :: _ => if isUnitChar c then some (natOfDigits ds, c) else none

/-- `parse_time` (lines 84-119).  Returns `none` for the Python
`(None, None)` result and `some (until_date, duration_str)` otherwise.
`now` stands for `datetime.utcnow()`; durations are in seconds. -/
def parse_time (now : Nat) (time_str : String) : Option (Nat × String) :=
  match re_match time_str.data with
  | none => none
  | some (amount, unit) =>
      match unit with
      | 's' => some (now + amount, toString amount ++ " sec.")
      | 'm' => some (now + 60 * amount, toString amount ++ " min.")
      | 'h' => some (now + 3600 * amount, toString amount ++ " h.")
      | 'd' => some (now + 86400 * amount, toString amount ++ " d.")
      | 'w' => some (now + 604800 * amount, toString amount ++ " w.")
      | 'M' => some (now + 2592000 * amount, toString amount ++ " M.")
      | 'y' => some (now + 31536000 * amount, toString amount ++ " y.")
      | _ => none

/-- Python `str.strip()`: remove whitespace from both ends. -/
def pyStrip (s : String) : String :=
  String.mk (((s.data.dropWhile Char.isWhitespace).reverse.dropWhile
    Char.isWhitespace).reverse)

/-- Python `str.split(maxsplit=1)` (line 232): skip leading whitespace,
take the first whitespace-free word, consume the separating whitespace
run, and keep the remainder verbatim; an empty remainder is dropped. -/
def splitMax1 (s : String) : List String :=
  let t := s.data.dropWhile Char.isWhitespace
  match t.takeWhile (fun c => !c.isWhitespace),
        (t.dropWhile (fun c => !c.isWhitespace)).dropWhile Char.isWhitespace with
  | [], _ => []
  | w, [] => [String.mk w]
  | w, rest => [String.mk w, String.mk rest]

/-- `func_kick`, the `/ban` handler (lines 169-201).  The `try` block
around the ban mutation converts `TelegramBadRequest` and any other
exception into an error reply; exceptions from the role lookups
(`check_admin`, line 184) are NOT caught and propagate. -/
def func_kick (env : Env) (msg : Msg) : List Event × Except PyExn Unit :=
  match check_admin env msg with
  | (evs, Except.error e) => (evs, Except.error e)
  | (evs, Except.ok false) => (evs, Except.ok ())
  | (evs, Except.ok true) =>
      match msg.replyTo with
      | none =>
          (evs ++ [send_error_event
            "Вам нужно сделать это в ответ на сообщение пользователя!"],
           Except.ok ())
      | some r =>
          match env.getChatMember r.fromUserId with
          | Except.error e =>
              (evs ++ [Event.getChatMemberCall r.fromUserId],
               Except.error (PyExn.telegram e))
          | Except.ok rt =>
              if isAdminRole rt then
                (evs ++ [Event.getChatMemberCall r.fromUserId,
                  send_error_event "Нельзя удалить администратора!"],
                 Except.ok ())
              else
                match env.banResult with
                | Except.ok _ =>
                    (evs ++ [Event.getChatMemberCall r.fromUserId,
                      Event.banCall msg.chatId r.fromUserId,
                      Event.answer ("🚫 <a href=" ++ sq ++ "tg://user?id="
                        ++ toString r.fromUserId ++ sq ++ ">" ++ r.fromFullName
                        ++ "</a> заблокирован навсегда\n👤 Модератор: <a href="
                        ++ sq ++ "tg://user?id=" ++ toString msg.fromUserId
                        ++ sq ++ ">" ++ msg.fromFirstName ++ "</a>")],
                     Except.ok ())
                | Except.error (TgError.badRequest m) =>
                    (evs ++ [Event.getChatMemberCall r.fromUserId,
                      Event.banCall msg.chatId r.fromUserId,
                      send_error_event
                        ("Не удалось удалить пользователя: " ++ m)],
                     Except.ok ())
                | Except.error (TgError.other m) =>
                    (evs ++ [Event.getChatMemberCall r.fromUserId,
                      Event.banCall msg.chatId r.fromUserId,
                      send_error_event ("Произошла ошибка: " ++ m)],
                     Except.ok ())

/-- `func_unban`, the `/unban` handler (lines 204-222).  Its `try` block
wraps the unban mutation, the success answer AND the direct
`bot.send_message(target, CHAT_LINK)` invite send (it does not call
`send_invite`); the single `except Exception` turns any of their
failures into an error reply. -/
def func_unban (env : Env) (msg : Msg) : List Event × Except PyExn Unit :=
  match check_admin env msg with
  | (evs, Except.error e) => (evs, Except.error e)
  | (evs, Except.ok false) => (evs, Except.ok ())
  | (evs, Except.ok true) =>
      match msg.replyTo with
      | none =>
          (evs ++ [send_error_event
            "Вам нужно сделать это в ответ на сообщение пользователя!"],
           Except.ok ())
      | some r =>
          match env.unbanResult with
          | Except.error e =>
              (evs ++ [Event.unbanCall msg.chatId r.fromUserId true,
                send_error_event ("Произошла ошибка: " ++ errText e)],
               Except.ok ())
          | Except.ok _ =>
              match env.sendToUser r.fromUserId with
              | Except.error e =>
                  (evs ++ [Event.unbanCall msg.chatId r.fromUserId true,
                    Event.answer "✅ Блокировка была снята",
                    Event.sendMessageCall r.fromUserId env.chatLink,
                    send_error_event ("Произошла ошибка: " ++ errText e)],
                   Except.ok ())
              | Except.ok _ =>
                  (evs ++ [Event.unbanCall msg.chatId r.fromUserId true,
                    Event.answer "✅ Блокировка была снята",
                    Event.sendMessageCall r.fromUserId env.chatLink],
                   Except.ok ())

/-- `func_mute`, the `/mute` handler (lines 225-294), up to line 257.
After the argument, reply-target and target-admin checks pass, line 257
evaluates `command_text.args` where `command_text` is the Python `list`
produced by `message.text.split(maxsplit=1)`; a `list` has no attribute
`args`, so every invocation reaching that line raises `AttributeError`
and nothing after it (duration parsing, restrict, confirmation) runs. -/
def func_mute (env : Env) (msg : Msg) : List Event × Except PyExn Unit :=
  match check_admin env msg with
  | (evs, Except.error e) => (evs, Except.error e)
  | (evs, Except.ok false) => (evs, Except.ok ())
  | (evs, Except.ok true) =>
      let command_text := splitMax1 msg.text
      if command_text.length < 2 then
        (evs ++ [send_error_event "Вам нужно указать аргументы команды!"],
         Except.ok ())
      else
        let args := pyStrip (command_text.getD 1 "")
        if args = "" then
          (evs ++ [send_error_event "Не указаны аргументы для команды!"],
           Except.ok ())
        else
          match msg.replyTo with
          | none =>
              (evs ++ [send_error_event
                "Вам нужно ответить на сообщение пользователя, которого вы хотите заглушить!"],
               Except.ok ())
          | some r =>
              match env.getChatMember r.fromUserId with
              | Except.error e =>
                  (evs ++ [Event.getChatMemberCall r.fromUserId],
                   Except.error (PyExn.telegram e))
              | Except.ok rt =>
                  if isAdminRole rt then
                    (evs ++ [Event.getChatMemberCall r.fromUserId,
                      send_error_event "Нельзя заглушить администратора!"],
                     Except.ok ())
                  else
                    (evs ++ [Event.getChatMemberCall r.fromUserId],
                     Except.error (PyExn.attributeError
                       "list object has no attribute args"))

/-- Python truthiness of an optional string (`if duration_str:`). -/
def pyTruthy : Option String → Bool
  | none => false
  | some t => if t = "" then false else true

/-- The confirmation text built in lines 284-292. -/
def mute_message (targetId : Nat) (fullName : String)
    (duration_str reason : Option String) : String :=
  let base := "🔇 <a href=" ++ sq ++ "tg://user?id=" ++ toString targetId
    ++ sq ++ ">" ++ fullName ++ "</a> был заглушен"
  let base := if pyTruthy duration_str then
      base ++ " на " ++ duration_str.getD "" else base
  if pyTruthy reason then base ++ "\nПричина: " ++ reason.getD ""
  else base ++ "!"

/-- The execution stage of `/mute`: the `with suppress(TelegramBadRequest)`
block of lines 276-294, covering BOTH the restrict call and the
confirmation answer.  A `TelegramBadRequest` from the restrict call exits
the whole block silently; any other exception propagates. -/
def mute_execute (env : Env) (msg : Msg) (targetId : Nat) (fullName : String)
    (until_date : Nat) (duration_str reason : Option String) :
    List Event × Except PyExn Unit :=
  match env.restrictResult with
  | Except.error (TgError.badRequest _) =>
      ([Event.restrictCall msg.chatId targetId (some until_date) false false],
       Except.ok ())
  | Except.error e =>
      ([Event.restrictCall msg.chatId targetId (some until_date) false false],
       Except.error (PyExn.telegram e))
  | Except.ok _ =>
      ([Event.restrictCall msg.chatId targetId (some until_date) false false,
        Event.answer (mute_message targetId fullName duration_str reason)],
       Except.ok ())

/-- `func_unmute`, the `/unmute` handler (lines 297-313).  The restrict
call (line 308) is NOT wrapped in any `try`: an exception from it
propagates past the handler boundary. -/
def func_unmute (env : Env) (msg : Msg) : List Event × Except PyExn Unit :=
  match check_admin env msg with
  | (evs, Except.error e) => (evs, Except.error e)
  | (evs, Except.ok false) => (evs, Except.ok ())
  | (evs, Except.ok true) =>
      match msg.replyTo with
      | none =>
          (evs ++ [send_error_event
            "Вам нужно сделать это в ответ на сообщение пользователя!"],
           Except.ok ())
      | some r =>
          match env.restrictResult with
          | Except.error e =>
              (evs ++ [Event.restrictCall msg.chatId r.fromUserId none true true],
               Except.error (PyExn.telegram e))
          | Except.ok _ =>
              (evs ++ [Event.restrictCall msg.chatId r.fromUserId none true true,
                Event.answer ("🎉 Все ограничения с пользователя <b><a href=\""
                  ++ "tg://user?id=" ++ toString r.fromUserId ++ "\">"
                  ++ r.fromFirstName ++ "</a></b> были сняты!")],
               Except.ok ())

/-- Events of the bootstrap retry loop (`delete_webhook_with_retry`). -/
inductive RetryEvent
  | attemptCall (i : Nat)
  | printSuccess
  | printError (i : Nat)
  | sleepCall (d : Nat)
  | printTerminal
deriving DecidableEq

/-- One pass of the `for attempt in range(retries)` loop of lines 42-51,
starting at attempt index `a` with `fuel` iterations left.  Success
returns immediately; any exception is caught, logged, followed by a
sleep and the next iteration; exhaustion prints the terminal failure
message (line 52) and returns normally. -/
def retryFrom (o : Nat → Except TgError Unit) (d : Nat) :
    Nat → Nat → List RetryEvent × Except PyExn Unit
  | _, 0 => ([RetryEvent.printTerminal], Except.ok ())
  | a, fuel + 1 =>
      match o a with
      | Except.ok _ =>
          ([RetryEvent.attemptCall a, RetryEvent.printSuccess], Except.ok ())
      | Except.error _ =>
          ([RetryEvent.attemptCall a, RetryEvent.printError a,
            RetryEvent.sleepCall d] ++ (retryFrom o d (a + 1) fuel).1,
           (retryFrom o d (a + 1) fuel).2)

/-- `delete_webhook_with_retry` (lines 41-52): `o i` is the outcome of
the `delete_webhook` call on attempt index `i` (0-based). -/
def delete_webhook_with_retry (o : Nat → Except TgError Unit)
    (retries d : Nat) : List RetryEvent × Except PyExn Unit :=
  retryFrom o d 0 retries

/-- Count of webhook-delete attempts in a retry trace. -/
def attemptCount (evs : List RetryEvent) : Nat :=
  evs.countP (fun e => match e with
    | RetryEvent.attemptCall _ => true
    | _ => false)

/-- Recognizer for ban-mutation events. -/
def isBanCall : Event → Bool
  | Event.banCall _ _ => true
  | _ => false

/-- Recognizer for restrict-mutation events. -/
def isRestrictCall : Event → Bool
  | Event.restrictCall _ _ _ _ _ => true
  | _ => false

/-! Concrete fixtures used by the closed theorems and witnesses below. -/

/-- Role lookup where the bot (id 1000) and the actor (id 10) are
administrators and everyone else is a plain member. -/
def lookupAdmins (uid : Nat) : Except TgError ChatRole :=
  if uid = 1000 then Except.ok ChatRole.administrator
  else if uid = 10 then Except.ok ChatRole.administrator
  else Except.ok ChatRole.member

/-- An environment where the bot (id 1000) and the actor (id 10) are
administrators, everyone else is a plain member, and every remote
operation succeeds. -/
def envAdmins : Env where
  botId := 1000
  chatLink := "https://t.me/joinchat/guard"
  getChatMember := lookupAdmins
  banResult := Except.ok ()
  unbanResult := Except.ok ()
  restrictResult := Except.ok ()
  sendToUser := fun _ => Except.ok ()

/-- Role lookup in which the reply-target (id 20) is an administrator. -/
def lookupAdminTarget (uid : Nat) : Except TgError ChatRole :=
  if uid = 20 then Except.ok ChatRole.administrator
  else envAdmins.getChatMember uid

/-- Like `envAdmins` but the reply-target (id 20) is an administrator. -/
def envAdminTarget : Env :=
  { envAdmins with getChatMember := lookupAdminTarget }

/-- Outcome of a private send to a user who blocked the bot. -/
def inviteFailure : Except TgError Unit :=
  Except.error (TgError.other "Forbidden: bot was blocked by the user")

/-- Like `envAdmins` but sending a private message to any user fails. -/
def envInviteFail : Env :=
  { envAdmins with sendToUser := fun _ => inviteFailure }

/-- Like `envAdmins` but the restrict mutation fails with a
non-`TelegramBadRequest` exception. -/
def envRestrictFail : Env :=
  { envAdmins with restrictResult := Except.error (TgError.other "network down") }

/-- Like `envAdmins` but every role lookup raises. -/
def envLookupFail : Env :=
  { envAdmins with getChatMember := fun _ => Except.error (TgError.other "network timeout") }

/-- Role lookup where the bot (id 1000) is an administrator but every
other lookup raises. -/
def lookupActorFail (uid : Nat) : Except TgError ChatRole :=
  if uid = 1000 then Except.ok ChatRole.administrator
  else Except.error (TgError.other "network timeout")

/-- Like `envAdmins` but the actor-role lookup raises. -/
def envActorLookupFail : Env :=
  { envAdmins with getChatMember := lookupActorFail }

/-- Role lookup where the reply-target (id 20) lookup raises and
everyone else answers as in `lookupAdmins`. -/
def lookupTargetFail (uid : Nat) : Except TgError ChatRole :=
  if uid = 20 then Except.error (TgError.other "network timeout")
  else lookupAdmins uid

/-- Like `envAdmins` but the target-role lookup raises. -/
def envTargetLookupFail : Env :=
  { envAdmins with getChatMember := lookupTargetFail }

/-- Role lookup in which the bot (id 1000) is a plain member. -/
def lookupBotMember (uid : Nat) : Except TgError ChatRole :=
  if uid = 1000 then Except.ok ChatRole.member
  else envAdmins.getChatMember uid

/-- Like `envAdmins` but the bot is a plain member of the chat. -/
def envBotNotAdmin : Env :=
  { envAdmins with getChatMember := lookupBotMember }

/-- The reply-target used throughout: user 20. -/
def targetReply : ReplyInfo where
  fromUserId := 20
  fromFullName := "Target User"
  fromFirstName := "Target"

/-- `/mute 2h spam` sent by admin 10 in chat 77, replying to user 20. -/
def muteMsg : Msg where
  chatId := 77
  fromUserId := 10
  fromFirstName := "Mod"
  text := "/mute 2h spam"
  replyTo := some targetReply

/-- `/ban` sent by admin 10 in chat 77, replying to user 20. -/
def banMsg : Msg where
  chatId := 77
  fromUserId := 10
  fromFirstName := "Mod"
  text := "/ban"
  replyTo := some targetReply

/-- `/unban` sent by admin 10 in chat 77, replying to user 20. -/
def unbanMsg : Msg where
  chatId := 77
  fromUserId := 10
  fromFirstName := "Mod"
  text := "/unban"
  replyTo := some targetReply

/-- `/unmute` sent by admin 10 in chat 77, replying to user 20. -/
def unmuteMsg : Msg where
  chatId := 77
  fromUserId := 10
  fromFirstName := "Mod"
  text := "/unmute"
  replyTo := some targetReply

/-- C1: the claim says `/mute 2h spam` with a valid non-admin reply-target
and admin bot/actor parses the duration to now+2h, calls restrict with
that expiry and confirms with label "2 h." and reason "spam".  The code
instead raises `AttributeError` at line 257 (`command_text.args` on a
Python list) right after the target-admin check, so no restrict call, no
confirmation and no error reply ever happens: the only events are the
three role lookups and the handler dies on an exception. -/
theorem c1_mute_two_hours_spam_raises_attribute_error :
    func_mute envAdmins muteMsg =
      ([Event.getChatMemberCall 1000, Event.getChatMemberCall 10,
        Event.getChatMemberCall 20],
       Except.error (PyExn.attributeError "list object has no attribute args"))
    ∧ (func_mute envAdmins muteMsg).1.countP isRestrictCall = 0 := by
  constructor <;> rfl

/-- C2: the claim says every token `<n><u>` with u in {s,m,h,d,w,M,y}
parses.  The regex character class on line 86 is `[smhd]`, so the `w`,
`M` and `y` arms of the `match` statement (lines 107-115) are
unreachable: "1w", "1M" and "1y" all yield the `(None, None)` result,
while the four units the regex does accept parse as specified
(e.g. "2h" ↦ (now+7200 s, "2 h.")). -/
theorem c2_week_month_year_units_rejected :
    parse_time 0 "1w" = none ∧ parse_time 0 "1M" = none
    ∧ parse_time 0 "1y" = none
    ∧ parse_time 0 "2h" = some (7200, "2 h.")
    ∧ parse_time 0 "3s" = some (3, "3 sec.")
    ∧ parse_time 0 "4m" = some (240, "4 min.")
    ∧ parse_time 0 "5d" = some (432000, "5 d.") := by
  refine ⟨rfl, rfl, rfl, rfl, rfl, rfl, rfl⟩

/-- C3 counterexample: the claim says no exception from the remote layer
ever propagates past a moderation handler.  In `/unmute` the restrict
call (line 308) sits outside any `try`: when it raises a
non-`TelegramBadRequest` error, the handler ends with that exception
escaping and no failure reply is produced. -/
theorem c3_unmute_restrict_exception_escapes :
    func_unmute envRestrictFail unmuteMsg =
      ([Event.getChatMemberCall 1000, Event.getChatMemberCall 10,
        Event.restrictCall 77 20 none true true],
       Except.error (PyExn.telegram (TgError.other "network down"))) := by
  rfl

/-- C4 counterexample: the claim says a failing role lookup makes the
admin predicate fail closed and surface a distinct error without the
failure escaping.  When `get_chat_member` for the bot raises,
`check_admin` neither returns `false` nor replies: the exception simply
propagates to its caller. -/
theorem c4_lookup_failure_propagates :
    check_admin envLookupFail unbanMsg =
      ([Event.getChatMemberCall 1000],
       Except.error (PyExn.telegram (TgError.other "network timeout"))) := by
  rfl

/-- C5: the claim says a failed invite notification after a successful
unban is only logged and never surfaced to the moderator.  `func_unban`
does not call the log-only `send_invite` helper; it calls
`bot.send_message` directly inside its own `try`, so when the invite
send fails the moderator receives an extra "Произошла ошибка" error
reply after the success answer. -/
theorem c5_invite_failure_reported_to_moderator :
    func_unban envInviteFail unbanMsg =
      ([Event.getChatMemberCall 1000, Event.getChatMemberCall 10,
        Event.unbanCall 77 20 true,
        Event.answer "✅ Блокировка была снята",
        Event.sendMessageCall 20 "https://t.me/joinchat/guard",
        Event.reply
          "<b>❌ Произошла ошибка: Forbidden: bot was blocked by the user</b>"],
       Except.ok ())
    ∧ send_invite envInviteFail 20 =
        ([Event.sendMessageCall 20 "https://t.me/joinchat/guard"],
         Except.ok ()) := by
  constructor <;> rfl

/-- C6 counterexample: the claim says any token with trailing characters
after the unit is NotParseable.  The regex is not anchored at the end,
so "2hx" parses exactly like "2h". -/
theorem c6_trailing_characters_accepted :
    parse_time 0 "2hx" = some (7200, "2 h.")
    ∧ parse_time 0 "2hx" ≠ none := by
  refine ⟨rfl, by decide⟩

/-! Helper lemmas about `check_admin`. -/

/-- When the bot-role lookup raises, `check_admin` raises too, with only
the bot lookup performed and no reply sent. -/
theorem check_admin_bot_lookup_error (env : Env) (msg : Msg) (e : TgError)
    (hb : env.getChatMember env.botId = Except.error e) :
    check_admin env msg =
      ([Event.getChatMemberCall env.botId], Except.error (PyExn.telegram e)) := by
  unfold check_admin
  rw [hb]

/-- When both role lookups succeed, `check_admin` returns normally. -/
theorem check_admin_no_raise (env : Env) (msg : Msg)
    (hb : exOk (env.getChatMember env.botId) = true)
    (ha : exOk (env.getChatMember msg.fromUserId) = true) :
    exOk (check_admin env msg).2 = true := by
  cases hb2 : env.getChatMember env.botId with
  | error e => rw [hb2] at hb; simp [exOk] at hb
  | ok rb =>
    cases ha2 : env.getChatMember msg.fromUserId with
    | error e => rw [ha2] at ha; simp [exOk] at ha
    | ok ra =>
      unfold check_admin
      rw [hb2, ha2]
      cases h1 : isAdminRole rb <;> cases h2 : isAdminRole ra <;>
        simp [exOk, h1, h2]

/-- When both role lookups succeed and both roles are administrative,
`check_admin` approves after exactly the two lookups, in order. -/
theorem check_admin_approves (env : Env) (msg : Msg) (rb ra : ChatRole)
    (hb : env.getChatMember env.botId = Except.ok rb)
    (hb2 : isAdminRole rb = true)
    (ha : env.getChatMember msg.fromUserId = Except.ok ra)
    (ha2 : isAdminRole ra = true) :
    check_admin env msg =
      ([Event.getChatMemberCall env.botId,
        Event.getChatMemberCall msg.fromUserId], Except.ok true) := by
  unfold check_admin
  rw [hb, ha]
  simp [hb2, ha2]

/-- `check_admin` when the bot is an administrator but the actor-role
lookup raises: the exception propagates after exactly the two lookups,
with no reply sent. -/
theorem check_admin_actor_lookup_error (env : Env) (msg : Msg)
    (rb : ChatRole) (e : TgError)
    (hb : env.getChatMember env.botId = Except.ok rb)
    (hb2 : isAdminRole rb = true)
    (ha : env.getChatMember msg.fromUserId = Except.error e) :
    check_admin env msg =
      ([Event.getChatMemberCall env.botId,
        Event.getChatMemberCall msg.fromUserId],
       Except.error (PyExn.telegram e)) := by
  unfold check_admin
  rw [hb, ha]
  simp [hb2]

/-- C4 (amended): whichever role lookup raises — the bot's, the actor's,
or the reply-target's in `/ban` and `/mute` — no moderation action
proceeds, but the predicate does not fail closed with a surfaced denial:
the exception propagates unreported out of `check_admin` and out of
every handler, whose whole event trace is the lookups performed so far,
with no mutation and no reply at all. -/
theorem c4_lookup_error_propagates_without_denial (env : Env) (msg : Msg)
    (e : TgError) :
    (env.getChatMember env.botId = Except.error e →
      check_admin env msg =
        ([Event.getChatMemberCall env.botId], Except.error (PyExn.telegram e))
      ∧ func_kick env msg =
          ([Event.getChatMemberCall env.botId], Except.error (PyExn.telegram e))
      ∧ func_unban env msg =
          ([Event.getChatMemberCall env.botId], Except.error (PyExn.telegram e))
      ∧ func_mute env msg =
          ([Event.getChatMemberCall env.botId], Except.error (PyExn.telegram e))
      ∧ func_unmute env msg =
          ([Event.getChatMemberCall env.botId], Except.error (PyExn.telegram e)))
    ∧ (∀ rb, env.getChatMember env.botId = Except.ok rb →
        isAdminRole rb = true →
        env.getChatMember msg.fromUserId = Except.error e →
        check_admin env msg =
          ([Event.getChatMemberCall env.botId,
            Event.getChatMemberCall msg.fromUserId],
           Except.error (PyExn.telegram e))
        ∧ func_kick env msg =
            ([Event.getChatMemberCall env.botId,
              Event.getChatMemberCall msg.fromUserId],
             Except.error (PyExn.telegram e))
        ∧ func_unban env msg =
            ([Event.getChatMemberCall env.botId,
              Event.getChatMemberCall msg.fromUserId],
             Except.error (PyExn.telegram e))
        ∧ func_mute env msg =
            ([Event.getChatMemberCall env.botId,
              Event.getChatMemberCall msg.fromUserId],
             Except.error (PyExn.telegram e))
        ∧ func_unmute env msg =
            ([Event.getChatMemberCall env.botId,
              Event.getChatMemberCall msg.fromUserId],
             Except.error (PyExn.telegram e)))
    ∧ (∀ r rb ra, env.getChatMember env.botId = Except.ok rb →
        isAdminRole rb = true →
        env.getChatMember msg.fromUserId = Except.ok ra →
        isAdminRole ra = true →
        msg.replyTo = some r →
        env.getChatMember r.fromUserId = Except.error e →
        func_kick env msg =
          ([Event.getChatMemberCall env.botId,
            Event.getChatMemberCall msg.fromUserId,
            Event.getChatMemberCall r.fromUserId],
           Except.error (PyExn.telegram e))
        ∧ (¬ (splitMax1 msg.text).length < 2 →
            pyStrip ((splitMax1 msg.text).getD 1 "") ≠ "" →
            func_mute env msg =
              ([Event.getChatMemberCall env.botId,
                Event.getChatMemberCall msg.fromUserId,
                Event.getChatMemberCall r.fromUserId],
               Except.error (PyExn.telegram e)))) := by
  refine ⟨?_, ?_, ?_⟩
  · intro hb
    have hca := check_admin_bot_lookup_error env msg e hb
    refine ⟨hca, ?_, ?_, ?_, ?_⟩
    · unfold func_kick; rw [hca]
    · unfold func_unban; rw [hca]
    · unfold func_mute; rw [hca]
    · unfold func_unmute; rw [hca]
  · intro rb hb hb2 ha
    have hca := check_admin_actor_lookup_error env msg rb e hb hb2 ha
    refine ⟨hca, ?_, ?_, ?_, ?_⟩
    · unfold func_kick; rw [hca]
    · unfold func_unban; rw [hca]
    · unfold func_mute; rw [hca]
    · unfold func_unmute; rw [hca]
  · intro r rb ra hb hb2 ha ha2 hr ht
    have hca := check_admin_approves env msg rb ra hb hb2 ha ha2
    constructor
    · unfold func_kick
      rw [hca]
      simp [hr, ht]
    · intro hlen hargs
      unfold func_mute
      rw [hca]
      simp [hlen, hr, ht]
      simpa using hargs

/-- C4 witness: the amended theorem at concrete failing environments,
one for each failing lookup (bot, actor, reply-target). -/
theorem c4_lookup_error_propagates_without_denial_witness :
    check_admin envLookupFail unbanMsg =
      ([Event.getChatMemberCall 1000],
       Except.error (PyExn.telegram (TgError.other "network timeout")))
    ∧ check_admin envActorLookupFail unbanMsg =
        ([Event.getChatMemberCall 1000, Event.getChatMemberCall 10],
         Except.error (PyExn.telegram (TgError.other "network timeout")))
    ∧ func_kick envTargetLookupFail banMsg =
        ([Event.getChatMemberCall 1000, Event.getChatMemberCall 10,
          Event.getChatMemberCall 20],
         Except.error (PyExn.telegram (TgError.other "network timeout")))
    ∧ func_mute envTargetLookupFail muteMsg =
        ([Event.getChatMemberCall 1000, Event.getChatMemberCall 10,
          Event.getChatMemberCall 20],
         Except.error (PyExn.telegram (TgError.other "network timeout"))) := by
  refine ⟨?_, ?_, ?_, ?_⟩
  · exact ((c4_lookup_error_propagates_without_denial envLookupFail unbanMsg
      (TgError.other "network timeout")).1 rfl).1
  · exact ((c4_lookup_error_propagates_without_denial envActorLookupFail
      unbanMsg (TgError.other "network timeout")).2.1
      ChatRole.administrator rfl rfl rfl).1
  · exact ((c4_lookup_error_propagates_without_denial envTargetLookupFail
      banMsg (TgError.other "network timeout")).2.2 targetReply
      ChatRole.administrator ChatRole.administrator
      rfl rfl rfl rfl rfl rfl).1
  · exact ((c4_lookup_error_propagates_without_denial envTargetLookupFail
      muteMsg (TgError.other "network timeout")).2.2 targetReply
      ChatRole.administrator ChatRole.administrator
      rfl rfl rfl rfl rfl rfl).2 (by decide) (by decide)

/-- C7: a `/ban` whose reply-target has an administrative role (admin or
owner), invoked by an admin with an admin bot, ends in the
"Нельзя удалить администратора!" error reply with zero calls to the
remote ban mutation. -/
theorem c7_ban_admin_target_no_mutation (env : Env) (msg : Msg)
    (r : ReplyInfo) (rb ra rt : ChatRole)
    (hb : env.getChatMember env.botId = Except.ok rb)
    (hb2 : isAdminRole rb = true)
    (ha : env.getChatMember msg.fromUserId = Except.ok ra)
    (ha2 : isAdminRole ra = true)
    (hr : msg.replyTo = some r)
    (ht : env.getChatMember r.fromUserId = Except.ok rt)
    (ht2 : isAdminRole rt = true) :
    func_kick env msg =
      ([Event.getChatMemberCall env.botId,
        Event.getChatMemberCall msg.fromUserId,
        Event.getChatMemberCall r.fromUserId,
        send_error_event "Нельзя удалить администратора!"], Except.ok ())
    ∧ (func_kick env msg).1.countP isBanCall = 0 := by
  have hca := check_admin_approves env msg rb ra hb hb2 ha ha2
  have hk : func_kick env msg =
      ([Event.getChatMemberCall env.botId,
        Event.getChatMemberCall msg.fromUserId,
        Event.getChatMemberCall r.fromUserId,
        send_error_event "Нельзя удалить администратора!"], Except.ok ()) := by
    unfold func_kick
    rw [hca]
    simp [hr, ht, ht2]
  refine ⟨hk, ?_⟩
  rw [hk]
  rfl

/-- C7 witness: `/ban` replying to administrator 20 in `envAdminTarget`. -/
theorem c7_ban_admin_target_no_mutation_witness :
    func_kick envAdminTarget banMsg =
      ([Event.getChatMemberCall 1000, Event.getChatMemberCall 10,
        Event.getChatMemberCall 20,
        send_error_event "Нельзя удалить администратора!"], Except.ok ())
    ∧ (func_kick envAdminTarget banMsg).1.countP isBanCall = 0 :=
  c7_ban_admin_target_no_mutation envAdminTarget banMsg targetReply
    ChatRole.administrator ChatRole.administrator ChatRole.administrator
    rfl rfl rfl rfl rfl rfl rfl

/-- C8: whenever the bot-role lookup answers a non-administrative role,
`check_admin` denies with the bot-lacks-admin reply; its event trace is
exactly the bot lookup followed by the denial, so the actor-role lookup
is never performed, whatever `getChatMember` would answer for the actor. -/
theorem c8_bot_check_first_denies (env : Env) (msg : Msg) (rb : ChatRole)
    (hb : env.getChatMember env.botId = Except.ok rb)
    (h2 : isAdminRole rb = false) :
    check_admin env msg =
      ([Event.getChatMemberCall env.botId,
        Event.reply "<b>❌ Бот не является администратором чата!</b>"],
       Except.ok false) := by
  unfold check_admin
  rw [hb]
  simp [h2]

/-- C8 witness: in `envBotNotAdmin` the actor (10) is an administrator,
yet the denial happens on the bot check alone. -/
theorem c8_bot_check_first_denies_witness :
    check_admin envBotNotAdmin banMsg =
      ([Event.getChatMemberCall 1000,
        Event.reply "<b>❌ Бот не является администратором чата!</b>"],
       Except.ok false) :=
  c8_bot_check_first_denies envBotNotAdmin banMsg ChatRole.member rfl rfl

/-- C10: in the mute execution stage (the `with suppress(TelegramBadRequest)`
block, lines 276-294) a bad-request error from the restrict call aborts
the whole block: the confirmation answer is skipped, no error reply is
sent, and the handler returns normally, so the invocation produces no
user-facing output at all. -/
theorem c10_mute_bad_request_suppresses_confirmation (env : Env) (msg : Msg)
    (targetId : Nat) (fullName : String) (until_date : Nat)
    (duration_str reason : Option String) (m : String)
    (hbr : env.restrictResult = Except.error (TgError.badRequest m)) :
    mute_execute env msg targetId fullName until_date duration_str reason =
      ([Event.restrictCall msg.chatId targetId (some until_date) false false],
       Except.ok ()) := by
  unfold mute_execute
  rw [hbr]

/-- Like `envAdmins` but the restrict mutation fails with
`TelegramBadRequest`. -/
def envBadRequest : Env :=
  { envAdmins with restrictResult := Except.error (TgError.badRequest "USER_NOT_PARTICIPANT") }

/-- C10 witness: the suppression at a concrete bad-request environment. -/
theorem c10_mute_bad_request_suppresses_confirmation_witness :
    mute_execute envBadRequest muteMsg 20 "Target User" 7200
      (some "2 h.") (some "spam") =
      ([Event.restrictCall 77 20 (some 7200) false false], Except.ok ()) :=
  c10_mute_bad_request_suppresses_confirmation envBadRequest muteMsg 20
    "Target User" 7200 (some "2 h.") (some "spam") "USER_NOT_PARTICIPANT" rfl

/-- Every role lookup in `lookupAdmins` succeeds. -/
theorem lookupAdmins_ok (u : Nat) : exOk (lookupAdmins u) = true := by
  unfold lookupAdmins
  split
  · rfl
  · split <;> rfl

/-- C3 (amended): conversion of remote exceptions into failure replies
holds for the ban and unban handlers (their `try` blocks cover the
mutation), but not for the whole handler set: role-lookup exceptions
propagate everywhere, unmute's restrict call is unwrapped, and mute
suppresses only `TelegramBadRequest`.  This theorem proves the surviving
half: whenever the role lookups succeed, `/ban` and `/unban` return
normally whatever the mutation or notification outcomes are. -/
theorem c3_ban_unban_convert_remote_errors (env : Env) (msg : Msg)
    (h : ∀ u, exOk (env.getChatMember u) = true) :
    (func_kick env msg).2 = Except.ok ()
    ∧ (func_unban env msg).2 = Except.ok () := by
  have hca := check_admin_no_raise env msg (h env.botId) (h msg.fromUserId)
  constructor
  · rcases hc : check_admin env msg with ⟨evs, res⟩
    rw [hc] at hca
    unfold func_kick
    rw [hc]
    cases res with
    | error e => simp [exOk] at hca
    | ok b =>
      cases b
      · rfl
      · cases hr : msg.replyTo with
        | none => rfl
        | some r =>
          rcases ht : env.getChatMember r.fromUserId with e | rt
          · have h3 := h r.fromUserId
            rw [ht] at h3
            simp [exOk] at h3
          · cases h4 : isAdminRole rt
            · rcases hban : env.banResult with e2 | u
              · cases e2 <;> simp [ht, h4, hban]
              · simp [ht, h4, hban]
            · simp [ht, h4]
  · rcases hc : check_admin env msg with ⟨evs, res⟩
    rw [hc] at hca
    unfold func_unban
    rw [hc]
    cases res with
    | error e => simp [exOk] at hca
    | ok b =>
      cases b
      · rfl
      · cases hr : msg.replyTo with
        | none => rfl
        | some r =>
          rcases hub : env.unbanResult with e2 | u
          · simp [hub]
          · rcases hsu : env.sendToUser r.fromUserId with e3 | u3 <;>
              simp [hub, hsu]

/-- C3 witness: the amended theorem at the all-successful environment. -/
theorem c3_ban_unban_convert_remote_errors_witness :
    (func_kick envAdmins banMsg).2 = Except.ok ()
    ∧ (func_unban envAdmins banMsg).2 = Except.ok () :=
  c3_ban_unban_convert_remote_errors envAdmins banMsg
    (fun u => lookupAdmins_ok u)

/-! Bootstrap retry lemmas (C9). -/

/-- `attemptCount` distributes over concatenation. -/
theorem attemptCount_append (l1 l2 : List RetryEvent) :
    attemptCount (l1 ++ l2) = attemptCount l1 + attemptCount l2 :=
  List.countP_append _ _ _

/-- The retry loop always returns normally: every exception from the
action is caught by one of the two `except` clauses. -/
theorem retryFrom_outcome_ok (o : Nat → Except TgError Unit) (d : Nat) :
    ∀ f a, (retryFrom o d a f).2 = Except.ok () := by
  intro f
  induction f with
  | zero => intro a; rfl
  | succ n ih =>
    intro a
    unfold retryFrom
    rcases ho : o a with e | u
    · simp only [ho]
      exact ih (a + 1)
    · simp only [ho]

/-- The retry loop makes at most `fuel` attempts. -/
theorem retryFrom_attempts_le (o : Nat → Except TgError Unit) (d : Nat) :
    ∀ f a, attemptCount (retryFrom o d a f).1 ≤ f := by
  intro f
  induction f with
  | zero => intro a; exact Nat.le.refl
  | succ n ih =>
    intro a
    unfold retryFrom
    rcases ho : o a with e | u
    · simp only [ho]
      rw [attemptCount_append]
      have h1 : attemptCount [RetryEvent.attemptCall a, RetryEvent.printError a,
          RetryEvent.sleepCall d] = 1 := rfl
      rw [h1]
      have := ih (a + 1)
      omega
    · simp only [ho]
      show 1 ≤ n + 1
      omega

/-- When the action always fails, the loop makes exactly `fuel` attempts
and logs the terminal failure. -/
theorem retryFrom_all_fail (o : Nat → Except TgError Unit) (d : Nat)
    (h : ∀ i, exOk (o i) = false) :
    ∀ f a, attemptCount (retryFrom o d a f).1 = f
      ∧ RetryEvent.printTerminal ∈ (retryFrom o d a f).1 := by
  intro f
  induction f with
  | zero =>
    intro a
    exact ⟨rfl, by simp [retryFrom]⟩
  | succ n ih =>
    intro a
    have ha := h a
    rcases ho : o a with e | u
    · unfold retryFrom
      simp only [ho]
      constructor
      · rw [attemptCount_append]
        have h1 : attemptCount [RetryEvent.attemptCall a, RetryEvent.printError a,
            RetryEvent.sleepCall d] = 1 := rfl
        rw [h1, (ih (a + 1)).1]
        omega
      · exact List.mem_append_right _ (ih (a + 1)).2
    · rw [ho] at ha
      simp [exOk] at ha

/-- When the first `k` attempts fail and attempt `k` succeeds within the
budget, the loop stops right after the success: exactly `k + 1` attempts
and no terminal-failure log. -/
theorem retryFrom_first_success (o : Nat → Except TgError Unit) (d : Nat) :
    ∀ k f a, (∀ j, j < k → exOk (o (a + j)) = false) →
      o (a + k) = Except.ok () → k < f →
      attemptCount (retryFrom o d a f).1 = k + 1
      ∧ RetryEvent.printTerminal ∉ (retryFrom o d a f).1 := by
  intro k
  induction k with
  | zero =>
    intro f a hfail hk hf
    rcases f with _ | n
    · omega
    · have hk2 : o a = Except.ok () := hk
      unfold retryFrom
      rw [hk2]
      exact ⟨rfl, by simp⟩
  | succ t ih =>
    intro f a hfail hk hf
    rcases f with _ | n
    · omega
    · have h0 : exOk (o a) = false := hfail 0 (Nat.succ_pos t)
      rcases ho : o a with e | u
      · have hshift : ∀ j, j < t → exOk (o (a + 1 + j)) = false := by
          intro j hj
          have he : a + 1 + j = a + (j + 1) := by omega
          rw [he]
          exact hfail (j + 1) (by omega)
        have hk2 : o (a + 1 + t) = Except.ok () := by
          have he : a + 1 + t = a + (t + 1) := by omega
          rw [he]
          exact hk
        have hrec := ih n (a + 1) hshift hk2 (by omega)
        unfold retryFrom
        simp only [ho]
        constructor
        · rw [attemptCount_append]
          have h1 : attemptCount [RetryEvent.attemptCall a, RetryEvent.printError a,
              RetryEvent.sleepCall d] = 1 := rfl
          rw [h1, hrec.1]
          omega
        · intro hmem
          rcases List.mem_append.mp hmem with hm | hm
          · simp at hm
          · exact hrec.2 hm
      · rw [ho] at h0
        simp [exOk] at h0

/-- C9: the bootstrap retrier attempts the webhook deletion at most
`retries` times; it always returns normally (no exception escapes); when
every attempt fails it records exactly `retries` attempts and logs the
terminal failure; and when the first `k` attempts fail and attempt `k`
succeeds within the budget, it returns right after the success with
exactly `k + 1` attempts recorded and no terminal-failure log. -/
theorem c9_bootstrap_retry_bounds (o : Nat → Except TgError Unit)
    (r d k : Nat) :
    attemptCount (delete_webhook_with_retry o r d).1 ≤ r
    ∧ (delete_webhook_with_retry o r d).2 = Except.ok ()
    ∧ ((∀ i, exOk (o i) = false) →
        attemptCount (delete_webhook_with_retry o r d).1 = r
        ∧ RetryEvent.printTerminal ∈ (delete_webhook_with_retry o r d).1)
    ∧ ((∀ j, j < k → exOk (o j) = false) → o k = Except.ok () → k < r →
        attemptCount (delete_webhook_with_retry o r d).1 = k + 1
        ∧ RetryEvent.printTerminal ∉ (delete_webhook_with_retry o r d).1) := by
  refine ⟨retryFrom_attempts_le o d r 0, retryFrom_outcome_ok o d r 0, ?_, ?_⟩
  · intro hall
    exact retryFrom_all_fail o d hall r 0
  · intro hfail hk hkr
    have h1 : ∀ j, j < k → exOk (o (0 + j)) = false := by
      intro j hj
      rw [Nat.zero_add]
      exact hfail j hj
    have h2 : o (0 + k) = Except.ok () := by
      rw [Nat.zero_add]
      exact hk
    exact retryFrom_first_success o d k r 0 h1 h2 hkr

/-- A bootstrap action failing on attempts 0 and 1, succeeding on 2. -/
def failTwice (i : Nat) : Except TgError Unit :=
  if i < 2 then Except.error (TgError.other "connection reset") else Except.ok ()

/-- C9 witness: the fail-twice-then-succeed scenario with 3 retries
records exactly 3 attempts and no terminal failure. -/
theorem c9_bootstrap_retry_bounds_witness :
    attemptCount (delete_webhook_with_retry failTwice 3 5).1 = 2 + 1
    ∧ RetryEvent.printTerminal ∉ (delete_webhook_with_retry failTwice 3 5).1 :=
  (c9_bootstrap_retry_bounds failTwice 3 5 2).2.2.2
    (by decide) (by rfl) (by decide)

/-! Characterization of the tokens `parse_time` rejects (C6). -/

/-- The token shape that is actually parseable: a nonempty leading run
of digits followed by one of the four unit characters the regex class
recognizes (`s`, `m`, `h`, `d`), with arbitrary trailing characters. -/
def goodToken (s : List Char) : Prop :=
  ∃ ds c rest, s = ds ++ c :: rest ∧ ds ≠ []
    ∧ (∀ x ∈ ds, x.isDigit = true) ∧ isUnitChar c = true

/-- Unit characters are not digits. -/
theorem unit_char_not_digit (c : Char) (h : isUnitChar c = true) :
    c.isDigit = false := by
  simp only [isUnitChar, Bool.or_eq_true, beq_iff_eq] at h
  rcases h with ((h | h) | h) | h <;> subst h <;> rfl

/-- `takeWhile`/`dropWhile` on a list of `p`-elements followed by a
non-`p` element split it exactly there. -/
theorem takeWhile_all_append (p : Char → Bool) (ds : List Char) (c : Char)
    (rest : List Char) (h1 : ∀ x ∈ ds, p x = true) (h2 : p c = false) :
    (ds ++ c :: rest).takeWhile p = ds
    ∧ (ds ++ c :: rest).dropWhile p = c :: rest := by
  induction ds with
  | nil => simp [List.takeWhile_cons, List.dropWhile_cons, h2]
  | cons a as ih =>
    have ha : p a = true := h1 a (List.mem_cons_self a as)
    have ih2 := ih (fun x hx => h1 x (List.mem_cons_of_mem a hx))
    simp [List.takeWhile_cons, List.dropWhile_cons, ha, ih2.1, ih2.2]

/-- A successful regex match exhibits the parseable token shape. -/
theorem goodToken_of_re_match (l : List Char) (n : Nat) (c : Char)
    (h : re_match l = some (n, c)) : goodToken l := by
  have hl := List.takeWhile_append_dropWhile (p := Char.isDigit) (l := l)
  rcases hds : l.takeWhile Char.isDigit with _ | ⟨a, as⟩
  · unfold re_match at h
    rw [hds] at h
    simp at h
  · rcases hdr : l.dropWhile Char.isDigit with _ | ⟨b, bs⟩
    · unfold re_match at h
      rw [hds, hdr] at h
      simp at h
    · unfold re_match at h
      rw [hds, hdr] at h
      have h2 : (if isUnitChar b = true then some (natOfDigits (a :: as), b)
          else none) = some (n, c) := h
      cases hu : isUnitChar b with
      | false => rw [hu] at h2; simp at h2
      | true =>
        refine ⟨a :: as, b, bs, ?_, by simp, ?_, hu⟩
        · rw [← hds, ← hdr]
          exact hl.symm
        · intro x hx
          have hx2 : x ∈ l.takeWhile Char.isDigit := by
            rw [hds]
            exact hx
          exact List.mem_takeWhile_imp hx2

/-- A token of the parseable shape makes the regex match succeed. -/
theorem re_match_of_goodToken (l : List Char) (hg : goodToken l) :
    ∃ n c, re_match l = some (n, c) ∧ isUnitChar c = true := by
  obtain ⟨ds, c, rest, hs, hne, hdig, hunit⟩ := hg
  have hnd : Char.isDigit c = false := unit_char_not_digit c hunit
  have hta := takeWhile_all_append Char.isDigit ds c rest hdig hnd
  subst hs
  refine ⟨natOfDigits ds, c, ?_, hunit⟩
  unfold re_match
  rw [hta.1, hta.2]
  rcases ds with _ | ⟨a, as⟩
  · exact absurd rfl hne
  · show (if isUnitChar c = true then some (natOfDigits (a :: as), c)
      else none) = some (natOfDigits (a :: as), c)
    rw [hunit]
    simp

/-- On a token of the parseable shape, `parse_time` does not return the
NotParseable result. -/
theorem parse_time_some_of_goodToken (now : Nat) (s : String)
    (hg : goodToken s.data) : parse_time now s ≠ none := by
  obtain ⟨n, c, hre, hu⟩ := re_match_of_goodToken s.data hg
  unfold parse_time
  rw [hre]
  simp only [isUnitChar, Bool.or_eq_true, beq_iff_eq] at hu
  rcases hu with ((h | h) | h) | h <;> subst h <;> simp

/-- C6 (amended): `parse_time` returns the NotParseable result exactly
for tokens that do not START with a nonempty run of digits followed by
one of the unit characters `s`, `m`, `h`, `d`.  In particular the empty
string, tokens with a non-digit amount and tokens missing a unit are
NotParseable — but trailing characters after the unit are ignored (not
rejected), and the units `w`, `M`, `y` are not recognized. -/
theorem c6_not_parseable_iff_shape (now : Nat) (s : String) :
    parse_time now s = none ↔ ¬ goodToken s.data := by
  constructor
  · intro h hg
    exact parse_time_some_of_goodToken now s hg h
  · intro hng
    rcases hre : re_match s.data with _ | ⟨n, c⟩
    · unfold parse_time
      rw [hre]
    · exact absurd (goodToken_of_re_match s.data n c hre) hng

end ChatGuard
